import Mathlib

/-!
Verification of the SNES web-emulator front end: the data model and the
operations of its console detection, ROM/archive ingestion, two-player input
routing and session lifecycle, embedded from the React source
(src/components/EmulatorScreen(fixes 2p).jsx, src/components/EmulatorScreen.jsx
and src/inputMapping.js).  JavaScript numbers are modelled as rationals,
JavaScript strings as Lean strings, and the stateful component logic as
explicit state-passing functions.
-/

namespace SNES

/-- Transition of a normalized input event: the `'down' | 'up'` strings of the
source. -/
inductive Transition
  | down
  | up
deriving DecidableEq, Repr

/-- Players: the `'p1' | 'p2'` strings of the source. -/
inductive Player
  | p1
  | p2
deriving DecidableEq, Repr

/-- Embeds `toCoreId` from src/inputMapping.js:
`return player === 2 ? 'P2_' + buttonName : buttonName;` with default
parameter `player = 1`. -/
def toCoreId (buttonName : String) (player : Int := 1) : String :=
  if player = 2 then "P2_" ++ buttonName else buttonName

/-- A keyboard binding `{ code: '...' }` as stored in the mapping objects. -/
structure Binding where
  code : String
deriving DecidableEq, Repr

/-- One player's mapping object: logical control names to optional keyboard
bindings (a control may be cleared to `null` by `clearMapping`).  Field order
follows the object literals in the source. -/
structure Mapping where
  up : Option Binding
  left : Option Binding
  right : Option Binding
  down : Option Binding
  a : Option Binding
  b : Option Binding
  x : Option Binding
  y : Option Binding
  l : Option Binding
  r : Option Binding
  start : Option Binding
  select : Option Binding
deriving DecidableEq, Repr

/-- The two-player mapping record `{ p1: {...}, p2: {...} }`. -/
structure PlayerMappings where
  p1 : Mapping
  p2 : Mapping
deriving DecidableEq, Repr

/-- Embeds `defaultMappings` from EmulatorScreen(fixes 2p).jsx lines 174-203
(identical in EmulatorScreen.jsx lines 28-57). -/
def defaultMappings : PlayerMappings :=
  { p1 :=
      { up := some ⟨"ArrowUp"⟩
        left := some ⟨"ArrowLeft"⟩
        right := some ⟨"ArrowRight"⟩
        down := some ⟨"ArrowDown"⟩
        a := some ⟨"KeyK"⟩
        b := some ⟨"KeyJ"⟩
        x := some ⟨"KeyI"⟩
        y := some ⟨"KeyU"⟩
        l := some ⟨"KeyQ"⟩
        r := some ⟨"KeyE"⟩
        start := some ⟨"Enter"⟩
        select := some ⟨"ShiftLeft"⟩ }
    p2 :=
      { up := some ⟨"KeyW"⟩
        left := some ⟨"KeyA"⟩
        right := some ⟨"KeyD"⟩
        down := some ⟨"KeyS"⟩
        a := some ⟨"KeyI"⟩
        b := some ⟨"KeyU"⟩
        x := some ⟨"KeyY"⟩
        y := some ⟨"KeyT"⟩
        l := some ⟨"KeyR"⟩
        r := some ⟨"KeyF"⟩
        start := some ⟨"KeyO"⟩
        select := some ⟨"KeyP"⟩ } }

/-- The physical key codes bound in a mapping, in field order, skipping
cleared (`null`) bindings. -/
def mappingCodes (m : Mapping) : List String :=
  [m.up, m.left, m.right, m.down, m.a, m.b, m.x, m.y, m.l, m.r, m.start,
    m.select].filterMap (Option.map Binding.code)

/-- Shape of the persisted record under the `snes_mappings_v1` storage key as
seen by the `useState` initializer of `mappings`: missing (`!raw`), corrupt
(`JSON.parse` throws), a full `{p1, p2}` record, or a legacy flat record
(any parsed value for which `parsed && parsed.p1 && parsed.p2` is falsy,
read as a single player's mapping object). -/
inductive StoredRecord
  | absent
  | corrupt
  | full (pm : PlayerMappings)
  | flat (m : Mapping)
deriving DecidableEq, Repr

/-- Embeds the `useState` initializer of `mappings` (EmulatorScreen(fixes
2p).jsx lines 205-216): defaults when missing or unparsable, the record
itself when it has both `p1` and `p2`, otherwise migration of the flat
record into `p1` with `p2` defaulted. -/
def loadMappings : StoredRecord → PlayerMappings
  | StoredRecord.absent => defaultMappings
  | StoredRecord.corrupt => defaultMappings
  | StoredRecord.full pm => pm
  | StoredRecord.flat m => { p1 := m, p2 := defaultMappings.p2 }

/-- Embeds the persistence effect (lines 460-466): the whole `mappings`
record is serialized to storage, i.e. stored in the full `{p1, p2}` shape. -/
def saveMappings (pm : PlayerMappings) : StoredRecord :=
  StoredRecord.full pm

/-- Session status: the `'idle' | 'loading' | 'running' | 'error'` strings of
the `status` state variable. -/
inductive Status
  | idle
  | loading
  | running
  | error
deriving DecidableEq, Repr

/-- A Nostalgist engine instance as the component observes it: an identity
plus the presence (and, when present, the result of calling) its optional
`saveState` and `loadState` capabilities.  `none` models
`typeof n.saveState !== 'function'`. -/
inductive CallResult (A : Type)
  | ok (value : A)
  | thrown (msg : String)
deriving DecidableEq, Repr

structure EngineInst where
  id : Nat
  saveStateFn : Option (CallResult Nat)
  loadStateFn : Option (CallResult Unit)
deriving DecidableEq, Repr

/-- A caught JavaScript error: `err.message` and optional `err.stack`. -/
structure JsError where
  message : String
  stack : Option String
deriving DecidableEq, Repr

/-- Component session state: `status`, the `nostalgistRef.current` handle,
and the error message/details state variables.  The ghost field `live`
tracks every engine instance that `Nostalgist.launch` has created and that
has not been `exit()`ed, so that resource claims about engine handles can be
stated. -/
structure SessionState where
  status : Status
  handle : Option EngineInst
  live : List EngineInst
  errorMessage : Option String
  errorDetails : Option String
deriving DecidableEq, Repr

/-- The state before any launch attempt: `useState('idle')`, a null ref. -/
def initialSession : SessionState :=
  { status := Status.idle, handle := none, live := [],
    errorMessage := none, errorDetails := none }

/-- Embeds `launchWithRomFile` (EmulatorScreen(fixes 2p).jsx lines 231-292;
the lines 81-138 version is identical in guard and handle behaviour):
`if (!file) return;` then unconditionally `setStatus('loading')`, then
`nostalgistRef.current = await Nostalgist.launch({...})` followed by
`setStatus('running')` on success, or capture of message/stack and
`setStatus('error')` on failure.  The function never reads the prior status
and never calls `exit()` on the instance it overwrites, so a successful
launch adds a new live instance while all prior ones stay live. -/
def launchWithRomFile (s : SessionState) (file : Option String)
    (launchResult : Except JsError EngineInst) : SessionState :=
  match file with
  | none => s
  | some _ =>
    let s1 := { s with status := Status.loading }
    match launchResult with
    | Except.ok inst =>
      { s1 with
          handle := some inst
          live := inst :: s1.live
          status := Status.running }
    | Except.error err =>
      { s1 with
          errorMessage := some err.message
          errorDetails := err.stack
          status := Status.error }

/-- Embeds the unmount cleanup effect (lines 718-732): if a current handle
exists (and exposes `exit`), await `exit()` and null the ref.  Only the
current handle is exited. -/
def teardown (s : SessionState) : SessionState :=
  match s.handle with
  | some inst => { s with handle := none, live := s.live.erase inst }
  | none => s

/-- Outcome of the `saveState` click handler as surfaced to the user. -/
inductive SaveOutcome
  | noInstance
  | unsupported
  | saved (blobData : Nat)
  | failed (msg : String)
deriving DecidableEq, Repr

/-- Embeds `saveState` (EmulatorScreen(fixes 2p).jsx lines 627-668):
no instance alerts "Please load a ROM first"; an instance without a
`saveState` function alerts "Save state not supported by this core" and
returns; otherwise the call's result is downloaded or its error alerted.
Every path returns an outcome without throwing and leaves the session
state untouched. -/
def saveStateOp (s : SessionState) : SessionState × SaveOutcome :=
  match s.handle with
  | none => (s, SaveOutcome.noInstance)
  | some inst =>
    match inst.saveStateFn with
    | none => (s, SaveOutcome.unsupported)
    | some (CallResult.ok blobData) => (s, SaveOutcome.saved blobData)
    | some (CallResult.thrown msg) => (s, SaveOutcome.failed msg)

/-- Outcome of the `onLoadStateFile` handler as surfaced to the user. -/
inductive LoadOutcome
  | noFile
  | noInstance
  | unsupported
  | loaded
  | failed (msg : String)
deriving DecidableEq, Repr

/-- Embeds `onLoadStateFile` (EmulatorScreen(fixes 2p).jsx lines 671-702):
no selected file returns silently; no instance alerts "Please load a ROM
first"; an instance without a `loadState` function alerts "Load state not
supported by this core" and returns; otherwise the call (with its
ArrayBuffer fallback collapsed into one result) is reported.  Every path
returns an outcome without throwing and leaves the session state
untouched. -/
def onLoadStateFile (s : SessionState) (file : Option String) :
    SessionState × LoadOutcome :=
  match file with
  | none => (s, LoadOutcome.noFile)
  | some _ =>
    match s.handle with
    | none => (s, LoadOutcome.noInstance)
    | some inst =>
      match inst.loadStateFn with
      | none => (s, LoadOutcome.unsupported)
      | some (CallResult.ok _) => (s, LoadOutcome.loaded)
      | some (CallResult.thrown msg) => (s, LoadOutcome.failed msg)

/-- A console profile `{ core, extensions }` as in the `consoleMap` values. -/
structure ConsoleProfile where
  core : String
  extensions : String
deriving DecidableEq, Repr

/-- The entries of the `consoleMap` object literal of `detectConsoleFromFile`
(EmulatorScreen(fixes 2p).jsx lines 24-136) in source order, duplicate keys
included: JavaScript object literals keep the LAST occurrence of a duplicate
key, which `lookupLast` below reproduces (`cue` appears under both Sega CD
and PlayStation, `iso` under both Sega CD and 3DO). -/
def consoleMapEntries : List (String × ConsoleProfile) :=
  [("smc", ⟨"snes9x", ".smc,.sfc,.fig,.swc"⟩),
   ("sfc", ⟨"snes9x", ".smc,.sfc,.fig,.swc"⟩),
   ("fig", ⟨"snes9x", ".smc,.sfc,.fig,.swc"⟩),
   ("swc", ⟨"snes9x", ".smc,.sfc,.fig,.swc"⟩),
   ("nes", ⟨"fceumm", ".nes,.unf,.unif"⟩),
   ("unf", ⟨"fceumm", ".nes,.unf,.unif"⟩),
   ("unif", ⟨"fceumm", ".nes,.unf,.unif"⟩),
   ("gba", ⟨"mgba", ".gba,.agb"⟩),
   ("agb", ⟨"mgba", ".gba,.agb"⟩),
   ("gbc", ⟨"gambatte", ".gbc"⟩),
   ("gb", ⟨"gambatte", ".gb"⟩),
   ("n64", ⟨"mupen64plus_next", ".n64,.z64,.v64"⟩),
   ("z64", ⟨"mupen64plus_next", ".n64,.z64,.v64"⟩),
   ("v64", ⟨"mupen64plus_next", ".n64,.z64,.v64"⟩),
   ("nds", ⟨"melonds", ".nds"⟩),
   ("md", ⟨"genesis_plus_gx", ".md,.gen,.smd,.bin"⟩),
   ("gen", ⟨"genesis_plus_gx", ".md,.gen,.smd,.bin"⟩),
   ("smd", ⟨"genesis_plus_gx", ".md,.gen,.smd,.bin"⟩),
   ("sms", ⟨"genesis_plus_gx", ".sms"⟩),
   ("gg", ⟨"genesis_plus_gx", ".gg"⟩),
   ("cue", ⟨"genesis_plus_gx", ".cue,.chd,.iso"⟩),
   ("chd", ⟨"genesis_plus_gx", ".cue,.chd,.iso"⟩),
   ("iso", ⟨"genesis_plus_gx", ".cue,.chd,.iso"⟩),
   ("32x", ⟨"picodrive", ".32x,.bin"⟩),
   ("ccd", ⟨"yabause", ".cue,.ccd,.chd,.iso"⟩),
   ("cue", ⟨"pcsx_rearmed", ".cue,.chd,.pbp,.bin"⟩),
   ("pbp", ⟨"pcsx_rearmed", ".cue,.chd,.pbp,.bin"⟩),
   ("a26", ⟨"stella", ".a26,.bin"⟩),
   ("a78", ⟨"prosystem", ".a78"⟩),
   ("lnx", ⟨"handy", ".lnx,.o"⟩),
   ("o", ⟨"handy", ".lnx,.o"⟩),
   ("j64", ⟨"virtualjaguar", ".j64,.jag"⟩),
   ("jag", ⟨"virtualjaguar", ".j64,.jag"⟩),
   ("pce", ⟨"mednafen_pce_fast", ".pce,.sgx"⟩),
   ("sgx", ⟨"mednafen_pce_fast", ".pce,.sgx"⟩),
   ("ngp", ⟨"mednafen_ngp", ".ngp,.ngc"⟩),
   ("ngc", ⟨"mednafen_ngp", ".ngp,.ngc"⟩),
   ("ws", ⟨"mednafen_wswan", ".ws,.wsc"⟩),
   ("wsc", ⟨"mednafen_wswan", ".ws,.wsc"⟩),
   ("vb", ⟨"mednafen_vb", ".vb,.vboy"⟩),
   ("vboy", ⟨"mednafen_vb", ".vb,.vboy"⟩),
   ("rom", ⟨"bluemsx", ".rom,.mx1,.mx2,.dsk"⟩),
   ("mx1", ⟨"bluemsx", ".rom,.mx1,.mx2,.dsk"⟩),
   ("mx2", ⟨"bluemsx", ".rom,.mx1,.mx2,.dsk"⟩),
   ("dsk", ⟨"bluemsx", ".rom,.mx1,.mx2,.dsk"⟩),
   ("d64", ⟨"vice_x64", ".d64,.t64,.prg"⟩),
   ("t64", ⟨"vice_x64", ".d64,.t64,.prg"⟩),
   ("prg", ⟨"vice_x64", ".d64,.t64,.prg"⟩),
   ("cdt", ⟨"cap32", ".cdt,.dsk"⟩),
   ("iso", ⟨"opera", ".iso,.cue,.chd"⟩),
   ("vec", ⟨"vecx", ".vec,.gam,.bin"⟩),
   ("gam", ⟨"vecx", ".vec,.gam,.bin"⟩),
   ("bin", ⟨"snes9x", ".bin"⟩)]

/-- Lookup in an association list with JavaScript object-literal semantics:
a later occurrence of the same key overwrites an earlier one. -/
def lookupLast (entries : List (String × ConsoleProfile)) (key : String) :
    Option ConsoleProfile :=
  entries.foldl (fun acc e => if e.1 = key then some e.2 else acc) none

/-- The fallback profile of `detectConsoleFromFile`:
`return { core: 'snes9x', extensions: '.smc,.sfc' };`. -/
def defaultProfile : ConsoleProfile :=
  ⟨"snes9x", ".smc,.sfc"⟩

/-- Split a character list at every occurrence of a separator, keeping empty
segments, as `String.split` does in JavaScript.  (Executable counterpart of
string splitting, by structural recursion so that proofs can evaluate it.) -/
def splitChar (sep : Char) : List Char → List (List Char)
  | [] => [[]]
  | c :: cs =>
    match splitChar sep cs with
    | [] => [[]]
    | g :: gs => if c = sep then [] :: g :: gs else (c :: g) :: gs

/-- Lowercase every character, as `toLowerCase()` does on ASCII names. -/
def lowerChars (cs : List Char) : List Char :=
  cs.map Char.toLower

/-- Embeds `filename.toLowerCase().match(/\.([^.]+)$/)?.[1]`: the lowercased
run of non-dot characters after the final dot, when the name has a dot
followed by at least one non-dot character. -/
def extOf (filename : String) : Option String :=
  let parts := splitChar (Char.ofNat 46) (lowerChars filename.toList)
  if 2 ≤ parts.length ∧ parts.getLastD [] ≠ [] then
    some (String.mk (parts.getLastD []))
  else none

/-- Embeds `detectConsoleFromFile` (EmulatorScreen(fixes 2p).jsx lines
20-146): look the extracted extension up in `consoleMap`; an absent
extension or an unknown one falls back to the default SNES profile. -/
def detectConsoleFromFile (filename : String) : ConsoleProfile :=
  match extOf filename with
  | none => defaultProfile
  | some ext =>
    match lookupLast consoleMapEntries ext with
    | some detected => detected
    | none => defaultProfile

/-- The alias set of a profile: its `extensions` string split at commas,
each alias keeping its leading dot (e.g. `[".smc", ".sfc"]`). -/
def aliasSet (profile : ConsoleProfile) : List String :=
  (splitChar (Char.ofNat 44) profile.extensions.toList).map String.mk

/-- The union of all alias sets of the table, in order. -/
def allAliasExtensions : List String :=
  (consoleMapEntries.map (fun e => aliasSet e.2)).flatten

/-- An entry of a zip archive as enumerated by `Object.entries(zip.files)`:
its name and its directory flag.  Entry bytes are irrelevant to the scan, so
an entry stands for its own payload. -/
structure ZipEntry where
  name : String
  dir : Bool
deriving DecidableEq, Repr

/-- Ingestion errors: `throw new Error('No valid ROM file found in ZIP
archive')`. -/
inductive IngestError
  | noRomInArchive
deriving DecidableEq, Repr

/-- Embeds `allRomExtensions` from `extractRomFromZip` (EmulatorScreen(fixes
2p).jsx lines 375-398), in source order. -/
def allRomExtensions : List String :=
  [".smc", ".sfc", ".fig", ".swc",
   ".nes", ".unf", ".unif",
   ".gba", ".agb",
   ".gbc", ".gb",
   ".n64", ".z64", ".v64",
   ".nds",
   ".md", ".gen", ".smd",
   ".sms", ".gg",
   ".cue", ".chd", ".iso", ".pbp",
   ".32x",
   ".a26", ".a78",
   ".lnx", ".o",
   ".j64", ".jag",
   ".pce", ".sgx",
   ".ngp", ".ngc",
   ".ws", ".wsc",
   ".vb", ".vboy",
   ".rom", ".mx1", ".mx2",
   ".d64", ".t64", ".prg",
   ".cdt", ".dsk",
   ".vec", ".gam",
   ".bin"]

/-- Embeds `'.' + filename.split('.').pop().toLowerCase()` from the zip
scan. -/
def zipEntryExt (filename : String) : String :=
  "." ++
    String.mk (lowerChars ((splitChar (Char.ofNat 46) filename.toList).getLastD []))

/-- The zip scan's acceptance test for one entry: not a directory and its
extension is in `allRomExtensions`. -/
def isRomEntry (e : ZipEntry) : Bool :=
  !e.dir && decide (zipEntryExt e.name ∈ allRomExtensions)

/-- Embeds the scan loop of `extractRomFromZip` (lines 400-418): walk the
entries in stored order, return the first acceptable one, and throw
`NoRomInArchive` when none matches.  A failure carries no payload. -/
def extractRomFromZip : List ZipEntry → Except IngestError ZipEntry
  | [] => Except.error IngestError.noRomInArchive
  | e :: rest =>
    if isRomEntry e then Except.ok e else extractRomFromZip rest

/-- Embeds the zip branch of `onRomSelected` (lines 438-452): extract the
ROM from the archive, then re-drive console detection from the extracted
entry's name; an extraction error propagates as the ingestion failure. -/
def onRomSelectedZip (entries : List ZipEntry) :
    Except IngestError (ZipEntry × ConsoleProfile) :=
  match extractRomFromZip entries with
  | Except.error err => Except.error err
  | Except.ok e => Except.ok (e, detectConsoleFromFile e.name)

/-- The analog-stick deadzone of `pollGamepad`: `const DEADZONE = 0.25;`. -/
def DEADZONE : ℚ :=
  1/4

/-- Embeds `const isPressed = btn.pressed || btn.value > 0.5;` for a digital
gamepad button sample. -/
def buttonActive (pressed : Bool) (value : ℚ) : Bool :=
  pressed || decide (value > 1/2)

/-- Edge detection shared by every button and axis-direction channel of
`pollGamepad` (EmulatorScreen(fixes 2p).jsx lines 773-919): a `down`
transition when active and not previously so, an `up` transition when
previously active and no longer so, nothing on steady state. -/
def edgeEvents (wasActive isActive : Bool) : List Transition :=
  if isActive && !wasActive then [Transition.down]
  else if !isActive && wasActive then [Transition.up]
  else []

/-- One poll of one digital gamepad button: the stored state is replaced by
the sampled state and a transition is emitted only on change. -/
def buttonStep (wasPressed : Bool) (pressed : Bool) (value : ℚ) :
    Bool × List Transition :=
  let isPressed := buttonActive pressed value
  (isPressed, edgeEvents wasPressed isPressed)

/-- The per-device axis edge state `{ up, down, left, right }` of
`gamepadState.current.axes`. -/
structure AxisState where
  up : Bool
  down : Bool
  left : Bool
  right : Bool
deriving DecidableEq, Repr

/-- The initializer `{ up: false, down: false, left: false, right: false }`. -/
def initAxisState : AxisState :=
  ⟨false, false, false, false⟩

/-- One poll of the left analog stick (lines 827-917): each of the four
directions is thresholded against the deadzone and edge-detected against the
stored state, in the source's dispatch order left, right, up, down. -/
def pollAxes (st : AxisState) (axisX axisY : ℚ) :
    AxisState × List (String × Transition) :=
  let leftActive := decide (axisX < -DEADZONE)
  let rightActive := decide (axisX > DEADZONE)
  let upActive := decide (axisY < -DEADZONE)
  let downActive := decide (axisY > DEADZONE)
  (⟨upActive, downActive, leftActive, rightActive⟩,
    (edgeEvents st.left leftActive).map (fun t => ("left", t)) ++
    (edgeEvents st.right rightActive).map (fun t => ("right", t)) ++
    (edgeEvents st.up upActive).map (fun t => ("up", t)) ++
    (edgeEvents st.down downActive).map (fun t => ("down", t)))

/-- A sequence of polls of the left analog stick, accumulating the emitted
transitions in order. -/
def pollAxesRun (st : AxisState) :
    List (ℚ × ℚ) → AxisState × List (String × Transition)
  | [] => (st, [])
  | p :: ps =>
    let stepped := pollAxes st p.1 p.2
    let rest := pollAxesRun stepped.1 ps
    (rest.1, stepped.2 ++ rest.2)

/-- A normalized event produced by the on-screen virtual controls, carrying
the core identifier passed to the Nostalgist instance. -/
structure VirtualEvent where
  id : String
  kind : Transition
  player : Player
deriving DecidableEq, Repr

/-- Embeds `handleVirtualPress` (EmulatorScreen(fixes 2p).jsx lines 946-961;
EmulatorScreen.jsx lines 496-508): the player parameter defaults to `'p1'`
and the forwarded identifier is `toCoreId(buttonName, player === 'p2' ? 2 :
1)`. -/
def handleVirtualPress (buttonName : String) (player : Player := Player.p1) :
    VirtualEvent :=
  ⟨toCoreId buttonName (if player = Player.p2 then 2 else 1),
    Transition.down, player⟩

/-- Embeds `handleVirtualRelease` (lines 963-971), player defaulting to
`'p1'` as above. -/
def handleVirtualRelease (buttonName : String)
    (player : Player := Player.p1) : VirtualEvent :=
  ⟨toCoreId buttonName (if player = Player.p2 then 2 else 1),
    Transition.up, player⟩

/-- The invocations wired to the on-screen button elements in the JSX
(EmulatorScreen(fixes 2p).jsx lines 1114-1165: select, start and the four
face buttons; EmulatorScreen.jsx lines 620-706 additionally the l and r
shoulder buttons): every press and release handler calls the virtual
helpers without a player argument. -/
def onScreenButtonEvents : List VirtualEvent :=
  [handleVirtualPress "select", handleVirtualRelease "select",
   handleVirtualPress "start", handleVirtualRelease "start",
   handleVirtualPress "y", handleVirtualRelease "y",
   handleVirtualPress "x", handleVirtualRelease "x",
   handleVirtualPress "a", handleVirtualRelease "a",
   handleVirtualPress "b", handleVirtualRelease "b",
   handleVirtualPress "l", handleVirtualRelease "l",
   handleVirtualPress "r", handleVirtualRelease "r"]

/-- The four d-pad directions. -/
inductive Dir
  | up
  | down
  | left
  | right
deriving DecidableEq, Repr, Fintype

/-- The direction's logical control name string. -/
def Dir.name : Dir → String
  | Dir.up => "up"
  | Dir.down => "down"
  | Dir.left => "left"
  | Dir.right => "right"

/-- Embeds the zone classification of `handleDpadMove`
(EmulatorScreen(fixes 2p).jsx lines 974-1019; EmulatorScreen.jsx lines
521-566): the vertical bands `yRatio < 0.33` and `yRatio > 0.67` are checked
before the horizontal bands `xRatio < 0.33` and `xRatio > 0.67`; everything
else is neutral (`null`). -/
def dpadZone (x y w h : ℚ) : Option Dir :=
  if y / h < 33/100 then some Dir.up
  else if y / h > 67/100 then some Dir.down
  else if x / w < 33/100 then some Dir.left
  else if x / w > 67/100 then some Dir.right
  else none

/-- The event emission of `handleDpadMove` on a zone change: release the
previously active direction (if any) first, then press the new one (if
any); both through the virtual helpers with their default `'p1'` player. -/
def dpadMoveEvents (cur nd : Option Dir) : List VirtualEvent :=
  if nd = cur then []
  else
    (cur.toList.map (fun d => handleVirtualRelease d.name)) ++
    (nd.toList.map (fun d => handleVirtualPress d.name))

/-- One pointer move over the d-pad surface: classify the contact point,
and when the zone changed release the old direction before pressing the new
one, storing the new zone in `activeDpadDirection`. -/
def handleDpadMove (cur : Option Dir) (x y w h : ℚ) :
    Option Dir × List VirtualEvent :=
  let nd := dpadZone x y w h
  if nd = cur then (cur, []) else (nd, dpadMoveEvents cur nd)

/-- Embeds `handleDpadEnd` (lines 1026-1032): release the active direction,
if any, and clear it. -/
def handleDpadEnd (cur : Option Dir) : Option Dir × List VirtualEvent :=
  match cur with
  | some d => (none, [handleVirtualRelease d.name])
  | none => (none, [])

/-- A drag across the d-pad: a sequence of pointer positions processed by
`handleDpadMove`, accumulating the emitted events in order. -/
def dpadRun (cur : Option Dir) :
    List (ℚ × ℚ × ℚ × ℚ) → Option Dir × List VirtualEvent
  | [] => (cur, [])
  | p :: ps =>
    let stepped := handleDpadMove cur p.1 p.2.1 p.2.2.1 p.2.2.2
    let rest := dpadRun stepped.1 ps
    (rest.1, stepped.2 ++ rest.2)

/-- Replay one virtual event over the set (as a list) of currently pressed
direction identifiers: a press adds its identifier, a release removes it. -/
def applyVirtualEvent (pressed : List String) (e : VirtualEvent) :
    List String :=
  match e.kind with
  | Transition.down => pressed ++ [e.id]
  | Transition.up => pressed.erase e.id

/-- Replay a list of virtual events in order. -/
def applyVirtualEvents (pressed : List String) (es : List VirtualEvent) :
    List String :=
  es.foldl applyVirtualEvent pressed

/-- A first engine instance, as created by a first successful launch. -/
def instA : EngineInst :=
  ⟨0, none, none⟩

/-- A second, distinct engine instance created by a second launch. -/
def instB : EngineInst :=
  ⟨1, none, none⟩

/-- The session after a first successful launch from the initial state. -/
def sessionAfterFirstLaunch : SessionState :=
  launchWithRomFile initialSession (some "mario.smc") (Except.ok instA)

/-- The session after a second successful launch issued while the first one
is still running. -/
def sessionAfterSecondLaunch : SessionState :=
  launchWithRomFile sessionAfterFirstLaunch (some "zelda.smc")
    (Except.ok instB)

/-- An engine instance exposing neither `saveState` nor `loadState`. -/
def engineNoStateSupport : EngineInst :=
  ⟨7, none, none⟩

/-- A running session whose engine lacks the state capabilities. -/
def runningNoStateSession : SessionState :=
  { status := Status.running, handle := some engineNoStateSupport,
    live := [engineNoStateSupport], errorMessage := none,
    errorDetails := none }

/-- A zip entry that is not a ROM (unknown extension). -/
def zipNonRomEntry : ZipEntry :=
  ⟨"readme.txt", false⟩

/-- A zip entry that is a directory, despite its ROM-like name. -/
def zipDirEntry : ZipEntry :=
  ⟨"roms.smc", true⟩

/-- The first acceptable ROM entry of the sample archive. -/
def zipRomEntry : ZipEntry :=
  ⟨"Game.SMC", false⟩

/-- A later entry that would also match but must not be chosen. -/
def zipExtraEntry : ZipEntry :=
  ⟨"other.sfc", false⟩

end SNES

namespace SNES

/-! Theorems.  Each claim is settled by one theorem (with a witness when the
theorem carries hypotheses, and a counterexample when the claim as stated
fails on the code). -/

/-- C9: `toCoreId` returns `"P2_"` prepended to the button name exactly for
player 2, and the button name unchanged for every other player value,
including the omitted-argument default 1; it is a pure function of its
arguments. -/
theorem toCoreId_player_marker :
    (∀ b : String, toCoreId b 2 = "P2_" ++ b) ∧
    (∀ (b : String) (p : Int), p ≠ 2 → toCoreId b p = b) ∧
    (∀ b : String, toCoreId b = b) := by
  refine ⟨fun b => rfl, fun b p hp => ?_, fun b => rfl⟩
  simp [toCoreId, hp]

/-- Witness for C9 at the concrete inputs "a" with players 2 and 1 and "b"
with the player argument omitted. -/
theorem toCoreId_player_marker_witness :
    toCoreId "a" 2 = "P2_a" ∧ toCoreId "a" 1 = "a" ∧ toCoreId "b" = "b" :=
  ⟨toCoreId_player_marker.1 "a",
   toCoreId_player_marker.2.1 "a" 1 (by decide),
   toCoreId_player_marker.2.2 "b"⟩

/-- C7: persisting a two-player mapping and loading the store again
reproduces it identically, and a legacy flat record loads as player 1's
mapping with player 2 set to the built-in defaults. -/
theorem mappings_roundtrip_and_legacy_migration :
    (∀ pm : PlayerMappings, loadMappings (saveMappings pm) = pm) ∧
    (∀ m : Mapping,
      loadMappings (StoredRecord.flat m) =
        { p1 := m, p2 := defaultMappings.p2 }) :=
  ⟨fun _ => rfl, fun _ => rfl⟩

/-- C3 counterexample: the physical key code "KeyI" is bound in both
players' built-in default mappings (player 1's `x` and player 2's `a`), so
the default key sets are not disjoint. -/
theorem defaultMappings_shared_key_counterexample :
    "KeyI" ∈ mappingCodes defaultMappings.p1 ∧
    "KeyI" ∈ mappingCodes defaultMappings.p2 := by
  exact ⟨by decide, by decide⟩

/-- C3 amended: the built-in defaults are disjoint except for exactly the
codes "KeyI" and "KeyU", each bound for both players (player 1's `x`/`y`
and player 2's `a`/`b`). -/
theorem defaultMappings_shared_keys_exactly :
    (mappingCodes defaultMappings.p1).filter
        (fun c => decide (c ∈ mappingCodes defaultMappings.p2)) =
      ["KeyI", "KeyU"] ∧
    (mappingCodes defaultMappings.p2).filter
        (fun c => decide (c ∈ mappingCodes defaultMappings.p1)) =
      ["KeyI", "KeyU"] := by
  exact ⟨by decide, by decide⟩

/-- C1 counterexample: from the initial state, a successful launch reaches
`running`; a second launch request issued in that state is not rejected and,
on success, leaves both engine instances live — the prior handle is never
released, so a reachable state holds two engine handles at once. -/
theorem launch_unguarded_two_live_handles :
    sessionAfterFirstLaunch.status = Status.running ∧
    sessionAfterSecondLaunch.live = [instB, instA] ∧
    instA ≠ instB :=
  ⟨rfl, rfl, by decide⟩

/-- C1 amended: `launchWithRomFile` is not guarded: invoked while the prior
session is `loading` or `running`, it still proceeds, overwrites the engine
handle with the newly created instance and releases nothing, so every
previously live engine instance stays live alongside the new one; only the
unmount `teardown` releases (and only) the current handle. -/
theorem launch_overwrites_handle_without_release :
    ∀ (s : SessionState) (f : String) (inst : EngineInst),
      s.status = Status.loading ∨ s.status = Status.running →
      (launchWithRomFile s (some f) (Except.ok inst)).handle = some inst ∧
      (launchWithRomFile s (some f) (Except.ok inst)).live =
        inst :: s.live :=
  fun _ _ _ _ => ⟨rfl, rfl⟩

/-- Witness for amended C1 at the concrete running session after the first
launch. -/
theorem launch_overwrites_handle_without_release_witness :
    (launchWithRomFile sessionAfterFirstLaunch (some "zelda.smc")
        (Except.ok instB)).handle = some instB ∧
    (launchWithRomFile sessionAfterFirstLaunch (some "zelda.smc")
        (Except.ok instB)).live = instB :: sessionAfterFirstLaunch.live :=
  launch_overwrites_handle_without_release sessionAfterFirstLaunch
    "zelda.smc" instB (Or.inr rfl)

/-- C8: when the current engine instance lacks the `saveState` (resp.
`loadState`) function, the operation reports the explicit unsupported
outcome to the caller and returns without throwing, leaving the session
state unchanged. -/
theorem state_ops_unsupported_leave_state :
    (∀ (s : SessionState) (inst : EngineInst), s.handle = some inst →
      inst.saveStateFn = none →
      saveStateOp s = (s, SaveOutcome.unsupported)) ∧
    (∀ (s : SessionState) (f : String) (inst : EngineInst),
      s.handle = some inst → inst.loadStateFn = none →
      onLoadStateFile s (some f) = (s, LoadOutcome.unsupported)) := by
  constructor
  · intro s inst h1 h2
    simp [saveStateOp, h1, h2]
  · intro s f inst h1 h2
    simp [onLoadStateFile, h1, h2]

/-- Witness for C8 at a concrete running session whose engine exposes
neither capability. -/
theorem state_ops_unsupported_leave_state_witness :
    saveStateOp runningNoStateSession =
      (runningNoStateSession, SaveOutcome.unsupported) ∧
    onLoadStateFile runningNoStateSession (some "snes_save.state") =
      (runningNoStateSession, LoadOutcome.unsupported) :=
  ⟨state_ops_unsupported_leave_state.1 runningNoStateSession
      engineNoStateSupport rfl rfl,
   state_ops_unsupported_leave_state.2 runningNoStateSession
      "snes_save.state" engineNoStateSupport rfl rfl⟩

/-- The zip scan ignores every leading entry it does not accept. -/
theorem extractRomFromZip_skip (pre rest : List ZipEntry)
    (h : ∀ z ∈ pre, isRomEntry z = false) :
    extractRomFromZip (pre ++ rest) = extractRomFromZip rest := by
  induction pre with
  | nil => rfl
  | cons e es ih =>
    have he := h e (List.mem_cons_self e es)
    have htail := ih fun z hz => h z (List.mem_cons_of_mem e hz)
    simp [extractRomFromZip, he, htail]

/-- The zip scan fails exactly when it accepts no entry. -/
theorem extractRomFromZip_none (entries : List ZipEntry)
    (h : ∀ z ∈ entries, isRomEntry z = false) :
    extractRomFromZip entries = Except.error IngestError.noRomInArchive := by
  have := extractRomFromZip_skip entries [] h
  simpa using this

/-- C4: archive ingestion scans the entries in their stored order and takes
the first non-directory entry whose extension is a known ROM extension as
the payload, with that entry's name re-driving console detection; when no
entry matches, ingestion fails with the no-ROM-in-archive error and
produces no payload at all. -/
theorem zip_ingest_takes_first_match :
    (∀ (pre : List ZipEntry) (e : ZipEntry) (post : List ZipEntry),
      (∀ z ∈ pre, isRomEntry z = false) → isRomEntry e = true →
      onRomSelectedZip (pre ++ e :: post) =
        Except.ok (e, detectConsoleFromFile e.name)) ∧
    (∀ entries : List ZipEntry, (∀ z ∈ entries, isRomEntry z = false) →
      onRomSelectedZip entries =
        Except.error IngestError.noRomInArchive) := by
  constructor
  · intro pre e post hpre he
    unfold onRomSelectedZip
    rw [extractRomFromZip_skip pre (e :: post) hpre]
    simp [extractRomFromZip, he]
  · intro entries h
    unfold onRomSelectedZip
    rw [extractRomFromZip_none entries h]

/-- Witness for C4 on a concrete archive: a text file and a directory are
skipped in favour of the first real ROM entry (whose uppercase extension is
lowercased for matching and whose name re-drives detection to the SNES
profile), and an archive with no acceptable entry fails. -/
theorem zip_ingest_takes_first_match_witness :
    onRomSelectedZip [zipNonRomEntry, zipDirEntry, zipRomEntry,
        zipExtraEntry] =
      Except.ok (zipRomEntry, ⟨"snes9x", ".smc,.sfc,.fig,.swc"⟩) ∧
    onRomSelectedZip [zipNonRomEntry, zipDirEntry] =
      Except.error IngestError.noRomInArchive :=
  ⟨zip_ingest_takes_first_match.1 [zipNonRomEntry, zipDirEntry] zipRomEntry
      [zipExtraEntry] (by decide) (by decide),
   zip_ingest_takes_first_match.2 [zipNonRomEntry, zipDirEntry] (by decide)⟩

/-- A fold implementing last-occurrence lookup returns its accumulator when
no entry bears the key. -/
theorem lookupLast_foldl_of_no_key (entries : List (String × ConsoleProfile))
    (key : String) (acc : Option ConsoleProfile)
    (h : ∀ e ∈ entries, e.1 ≠ key) :
    entries.foldl (fun acc e => if e.1 = key then some e.2 else acc) acc =
      acc := by
  induction entries generalizing acc with
  | nil => rfl
  | cons e es ih =>
    have he := h e (List.mem_cons_self e es)
    simp only [List.foldl_cons, if_neg he]
    exact ih acc fun z hz => h z (List.mem_cons_of_mem e hz)

/-- Lookup with object-literal semantics misses exactly the non-keys. -/
theorem lookupLast_eq_none (entries : List (String × ConsoleProfile))
    (key : String) (h : ∀ e ∈ entries, e.1 ≠ key) :
    lookupLast entries key = none :=
  lookupLast_foldl_of_no_key entries key none h

/-- Every key of the console table appears (dotted) in the union of the
table's alias sets. -/
theorem consoleMap_keys_in_aliases :
    ∀ e ∈ consoleMapEntries, ("." ++ e.1) ∈ allAliasExtensions := by
  decide

/-- C5 counterexample: detection of "chd" returns the Sega-CD profile whose
alias set contains ".cue", yet detection of "cue" returns the PlayStation
profile — the duplicate `cue` key later in the object literal shadows the
Sega-CD entry, so an extension in a profile's alias set is not always
mapped to that profile. -/
theorem profileFor_alias_counterexample :
    detectConsoleFromFile "game.chd" =
      ⟨"genesis_plus_gx", ".cue,.chd,.iso"⟩ ∧
    ".cue" ∈ aliasSet ⟨"genesis_plus_gx", ".cue,.chd,.iso"⟩ ∧
    detectConsoleFromFile "game.cue" =
      ⟨"pcsx_rearmed", ".cue,.chd,.pbp,.bin"⟩ ∧
    detectConsoleFromFile "game.cue" ≠
      ⟨"genesis_plus_gx", ".cue,.chd,.iso"⟩ := by
  exact ⟨by decide, by decide, by decide, by decide⟩

/-- C5 amended: detection is a keyed lookup in the table: an extension that
is a key maps to its (last) table entry — e.g. smc/sfc/fig/swc to the
snes9x profile, while the duplicated keys cue and iso map to the
PlayStation and 3DO entries that shadow the Sega-CD ones — and an extension
appearing in no alias set (hence no key) falls back to the default snes9x
profile instead of failing. -/
theorem profileFor_keyed_lookup :
    (detectConsoleFromFile "a.smc" =
        ⟨"snes9x", ".smc,.sfc,.fig,.swc"⟩ ∧
      detectConsoleFromFile "a.sfc" =
        ⟨"snes9x", ".smc,.sfc,.fig,.swc"⟩ ∧
      detectConsoleFromFile "a.fig" =
        ⟨"snes9x", ".smc,.sfc,.fig,.swc"⟩ ∧
      detectConsoleFromFile "a.swc" =
        ⟨"snes9x", ".smc,.sfc,.fig,.swc"⟩) ∧
    ((detectConsoleFromFile "a.cue").core = "pcsx_rearmed" ∧
      (detectConsoleFromFile "a.iso").core = "opera" ∧
      (detectConsoleFromFile "a.dsk").core = "bluemsx") ∧
    (∀ (filename ext : String), extOf filename = some ext →
      ("." ++ ext) ∉ allAliasExtensions →
      detectConsoleFromFile filename = defaultProfile) := by
  refine ⟨⟨by decide, by decide, by decide, by decide⟩,
    ⟨by decide, by decide, by decide⟩, ?_⟩
  intro filename ext hext hnot
  have hkeys : ∀ e ∈ consoleMapEntries, e.1 ≠ ext := by
    intro e he heq
    exact hnot (heq ▸ consoleMap_keys_in_aliases e he)
  unfold detectConsoleFromFile
  rw [hext]
  show (match lookupLast consoleMapEntries ext with
    | some detected => detected
    | none => defaultProfile) = defaultProfile
  rw [lookupLast_eq_none consoleMapEntries ext hkeys]

/-- Witness for C5 amended at the unknown extension "xyz". -/
theorem profileFor_keyed_lookup_witness :
    detectConsoleFromFile "a.xyz" = defaultProfile :=
  profileFor_keyed_lookup.2.2 "a.xyz" "xyz" (by decide) (by decide)

/-- A poll with both axes strictly inside the deadzone leaves the neutral
edge state neutral and emits nothing. -/
theorem pollAxes_neutral (x y : ℚ) (hx : |x| < DEADZONE)
    (hy : |y| < DEADZONE) :
    pollAxes initAxisState x y = (initAxisState, []) := by
  obtain ⟨hx1, hx2⟩ := abs_lt.mp hx
  obtain ⟨hy1, hy2⟩ := abs_lt.mp hy
  have h1 : ¬(x < -DEADZONE) := by linarith
  have h2 : ¬(x > DEADZONE) := by linarith
  have h3 : ¬(y < -DEADZONE) := by linarith
  have h4 : ¬(y > DEADZONE) := by linarith
  simp [pollAxes, initAxisState, edgeEvents, h1, h2, h3, h4]

/-- C2: transitions are emitted only on sampled-state change.  A digital
button emits exactly when its sampled state differs from the stored one
(hence never on steady state); over any poll sequence whose axis samples
stay strictly inside the 0.25 deadzone the axis channels emit nothing;
crossing the deadzone emits exactly one `down` for that direction;
returning inside it emits exactly one `up`; and holding beyond the
threshold across consecutive polls emits nothing. -/
theorem gamepad_edge_detection :
    (∀ (wasPressed pressed : Bool) (value : ℚ),
      (buttonStep wasPressed pressed value).2 ≠ [] ↔
        buttonActive pressed value ≠ wasPressed) ∧
    (∀ polls : List (ℚ × ℚ),
      (∀ p ∈ polls, |p.1| < DEADZONE ∧ |p.2| < DEADZONE) →
      pollAxesRun initAxisState polls = (initAxisState, [])) ∧
    (∀ x y : ℚ, x < -DEADZONE → |y| < DEADZONE →
      pollAxes initAxisState x y =
        (⟨false, false, true, false⟩, [("left", Transition.down)])) ∧
    (∀ x y : ℚ, |x| < DEADZONE → |y| < DEADZONE →
      pollAxes ⟨false, false, true, false⟩ x y =
        (initAxisState, [("left", Transition.up)])) ∧
    (∀ x y : ℚ, x < -DEADZONE → |y| < DEADZONE →
      pollAxes ⟨false, false, true, false⟩ x y =
        (⟨false, false, true, false⟩, [])) := by
  refine ⟨?_, ?_, ?_, ?_, ?_⟩
  · intro wasPressed pressed value
    cases hact : buttonActive pressed value <;> cases wasPressed <;>
      simp [buttonStep, edgeEvents, hact]
  · intro polls h
    induction polls with
    | nil => rfl
    | cons p ps ih =>
      have hp := h p (List.mem_cons_self p ps)
      have hrest := ih fun q hq => h q (List.mem_cons_of_mem p hq)
      show (let stepped := pollAxes initAxisState p.1 p.2
        let rest := pollAxesRun stepped.1 ps
        (rest.1, stepped.2 ++ rest.2)) = (initAxisState, [])
      rw [pollAxes_neutral p.1 p.2 hp.1 hp.2]
      simpa using hrest
  · intro x y hx hy
    obtain ⟨hy1, hy2⟩ := abs_lt.mp hy
    have h2 : ¬(x > DEADZONE) := by
      unfold DEADZONE at hx ⊢
      linarith
    have h3 : ¬(y < -DEADZONE) := by linarith
    have h4 : ¬(y > DEADZONE) := by linarith
    simp [pollAxes, initAxisState, edgeEvents, hx, h2, h3, h4]
  · intro x y hx hy
    obtain ⟨hx1, hx2⟩ := abs_lt.mp hx
    obtain ⟨hy1, hy2⟩ := abs_lt.mp hy
    have h1 : ¬(x < -DEADZONE) := by linarith
    have h2 : ¬(x > DEADZONE) := by linarith
    have h3 : ¬(y < -DEADZONE) := by linarith
    have h4 : ¬(y > DEADZONE) := by linarith
    simp [pollAxes, initAxisState, edgeEvents, h1, h2, h3, h4]
  · intro x y hx hy
    obtain ⟨hy1, hy2⟩ := abs_lt.mp hy
    have h2 : ¬(x > DEADZONE) := by
      unfold DEADZONE at hx ⊢
      linarith
    have h3 : ¬(y < -DEADZONE) := by linarith
    have h4 : ¬(y > DEADZONE) := by linarith
    simp [pollAxes, edgeEvents, hx, h2, h3, h4]

/-- Witness for C2: a held button sample, two in-deadzone polls, a deadzone
crossing, a return inside the deadzone, and a held crossing, all at
concrete values. -/
theorem gamepad_edge_detection_witness :
    ((buttonStep false true 1).2 ≠ [] ↔ buttonActive true 1 ≠ false) ∧
    pollAxesRun initAxisState [(1/10, -1/10), (0, 0)] =
      (initAxisState, []) ∧
    pollAxes initAxisState (-1/2) 0 =
      (⟨false, false, true, false⟩, [("left", Transition.down)]) ∧
    pollAxes ⟨false, false, true, false⟩ 0 0 =
      (initAxisState, [("left", Transition.up)]) ∧
    pollAxes ⟨false, false, true, false⟩ (-1/2) 0 =
      (⟨false, false, true, false⟩, []) :=
  ⟨gamepad_edge_detection.1 false true 1,
   gamepad_edge_detection.2.1 [(1/10, -1/10), (0, 0)] (by
    intro p hp
    simp only [List.mem_cons, List.not_mem_nil, or_false] at hp
    rcases hp with h | h <;> subst h <;>
      exact ⟨abs_lt.mpr (by norm_num [DEADZONE]),
        abs_lt.mpr (by norm_num [DEADZONE])⟩),
   gamepad_edge_detection.2.2.1 (-1/2) 0 (by norm_num [DEADZONE])
     (abs_lt.mpr (by norm_num [DEADZONE])),
   gamepad_edge_detection.2.2.2.1 0 0 (abs_lt.mpr (by norm_num [DEADZONE]))
     (abs_lt.mpr (by norm_num [DEADZONE])),
   gamepad_edge_detection.2.2.2.2 (-1/2) 0 (by norm_num [DEADZONE])
     (abs_lt.mpr (by norm_num [DEADZONE]))⟩

/-- Replaying events over a concatenation replays the parts in order. -/
theorem applyVirtualEvents_append (pressed : List String)
    (es fs : List VirtualEvent) :
    applyVirtualEvents pressed (es ++ fs) =
      applyVirtualEvents (applyVirtualEvents pressed es) fs :=
  List.foldl_append _ _ es fs

/-- Replaying the events of one zone change turns the old active-direction
set into the new one, for every pair of zones. -/
theorem dpad_applyEvents_step :
    ∀ c n : Option Dir,
      applyVirtualEvents (c.toList.map Dir.name) (dpadMoveEvents c n) =
        n.toList.map Dir.name := by
  decide

/-- Replaying the events of one pointer move preserves the correspondence
between the replayed pressed set and the stored active direction. -/
theorem dpad_move_invariant (cur : Option Dir) (x y w h : ℚ) :
    applyVirtualEvents (cur.toList.map Dir.name)
        (handleDpadMove cur x y w h).2 =
      (handleDpadMove cur x y w h).1.toList.map Dir.name := by
  unfold handleDpadMove
  by_cases hc : dpadZone x y w h = cur
  · simp [hc, applyVirtualEvents]
  · simpa [hc] using dpad_applyEvents_step cur (dpadZone x y w h)

/-- Over a whole drag, the replayed pressed set always equals the stored
active direction (as a one-element-or-empty set). -/
theorem dpadRun_invariant (cur : Option Dir)
    (ps : List (ℚ × ℚ × ℚ × ℚ)) :
    applyVirtualEvents (cur.toList.map Dir.name) (dpadRun cur ps).2 =
      (dpadRun cur ps).1.toList.map Dir.name := by
  induction ps generalizing cur with
  | nil => rfl
  | cons p ps ih =>
    show applyVirtualEvents _
        ((handleDpadMove cur p.1 p.2.1 p.2.2.1 p.2.2.2).2 ++
          (dpadRun (handleDpadMove cur p.1 p.2.1 p.2.2.1 p.2.2.2).1 ps).2) =
      _
    rw [applyVirtualEvents_append,
      dpad_move_invariant cur p.1 p.2.1 p.2.2.1 p.2.2.2]
    exact ih (handleDpadMove cur p.1 p.2.1 p.2.2.1 p.2.2.2).1

/-- C6 counterexample: on a unit pad, the contact point (1/2, 331/1000) lies
strictly inside the top third of the pad's height (331/1000 < 1/3), yet the
code classifies it as neutral, because the vertical boundary is the
constant 0.33 rather than one third. -/
theorem dpadZone_thirds_counterexample :
    (331/1000 : ℚ) < 1/3 ∧ dpadZone (1/2) (331/1000) 1 1 = none := by
  constructor
  · norm_num
  · norm_num [dpadZone]

/-- C6 amended: the d-pad contact point is classified into one of five
zones by fixed bands of the pad's width and height with boundaries at 0.33
and 0.67 (approximately thirds), the vertical bands checked before the
horizontal ones; every zone change emits an `up` for the previously active
direction (if any) before the `down` for the new one; and over any drag
from a neutral start at most one directional input is active at a time. -/
theorem dpad_zone_transitions :
    (∀ x y w h : ℚ, y / h < 33/100 → dpadZone x y w h = some Dir.up) ∧
    (∀ x y w h : ℚ, ¬(y / h < 33/100) → y / h > 67/100 →
      dpadZone x y w h = some Dir.down) ∧
    (∀ x y w h : ℚ, ¬(y / h < 33/100) → ¬(y / h > 67/100) →
      x / w < 33/100 → dpadZone x y w h = some Dir.left) ∧
    (∀ x y w h : ℚ, ¬(y / h < 33/100) → ¬(y / h > 67/100) →
      ¬(x / w < 33/100) → x / w > 67/100 →
      dpadZone x y w h = some Dir.right) ∧
    (∀ x y w h : ℚ, ¬(y / h < 33/100) → ¬(y / h > 67/100) →
      ¬(x / w < 33/100) → ¬(x / w > 67/100) → dpadZone x y w h = none) ∧
    (∀ d d' : Dir, d ≠ d' → dpadMoveEvents (some d) (some d') =
      [handleVirtualRelease d.name, handleVirtualPress d'.name]) ∧
    (∀ ps : List (ℚ × ℚ × ℚ × ℚ),
      (applyVirtualEvents [] (dpadRun none ps).2).length ≤ 1) := by
  refine ⟨?_, ?_, ?_, ?_, ?_, ?_, ?_⟩
  · intro x y w h h1
    simp [dpadZone, h1]
  · intro x y w h h1 h2
    simp [dpadZone, h1, h2]
  · intro x y w h h1 h2 h3
    simp [dpadZone, h1, h2, h3]
  · intro x y w h h1 h2 h3 h4
    simp [dpadZone, h1, h2, h3, h4]
  · intro x y w h h1 h2 h3 h4
    simp [dpadZone, h1, h2, h3, h4]
  · intro d d' hne
    have hsome : some d' ≠ some d := by simpa using hne.symm
    simp [dpadMoveEvents, hsome]
  · intro ps
    have h := dpadRun_invariant none ps
    simp only [Option.toList_none, List.map_nil] at h
    rw [h]
    cases (dpadRun none ps).1 <;> simp

/-- Witness for C6: each zone band at a concrete contact point on a unit
pad, the up-zone to left-zone change emitting release-before-press, and a
concrete drag with at most one active direction. -/
theorem dpad_zone_transitions_witness :
    dpadZone (1/2) (1/10) 1 1 = some Dir.up ∧
    dpadZone (1/2) (9/10) 1 1 = some Dir.down ∧
    dpadZone (1/10) (1/2) 1 1 = some Dir.left ∧
    dpadZone (9/10) (1/2) 1 1 = some Dir.right ∧
    dpadZone (1/2) (1/2) 1 1 = none ∧
    dpadMoveEvents (some Dir.up) (some Dir.left) =
      [handleVirtualRelease "up", handleVirtualPress "left"] ∧
    (applyVirtualEvents []
      (dpadRun none [(1/2, 1/10, 1, 1), (1/10, 1/2, 1, 1)]).2).length ≤ 1 :=
  ⟨dpad_zone_transitions.1 (1/2) (1/10) 1 1 (by norm_num),
   dpad_zone_transitions.2.1 (1/2) (9/10) 1 1 (by norm_num) (by norm_num),
   dpad_zone_transitions.2.2.1 (1/10) (1/2) 1 1 (by norm_num) (by norm_num)
     (by norm_num),
   dpad_zone_transitions.2.2.2.1 (9/10) (1/2) 1 1 (by norm_num)
     (by norm_num) (by norm_num) (by norm_num),
   dpad_zone_transitions.2.2.2.2.1 (1/2) (1/2) 1 1 (by norm_num)
     (by norm_num) (by norm_num) (by norm_num),
   dpad_zone_transitions.2.2.2.2.2.1 Dir.up Dir.left (by decide),
   dpad_zone_transitions.2.2.2.2.2.2
     [(1/2, 1/10, 1, 1), (1/10, 1/2, 1, 1)]⟩

/-- Every event a zone change can emit is a player-1 event for one of the
four unprefixed direction identifiers. -/
theorem dpadMoveEvents_all_p1 :
    ∀ c n : Option Dir, ∀ e ∈ dpadMoveEvents c n,
      e.player = Player.p1 ∧ e.id ∈ ["up", "down", "left", "right"] := by
  decide

/-- C10: every input event produced by the on-screen virtual controls is
issued for player 1 with an unprefixed core identifier: the enumerated
button handlers as wired in the JSX, every event of a d-pad pointer move,
and every event of a d-pad pointer end, all call the virtual press/release
helpers without a player argument, which defaults to `'p1'`. -/
theorem onscreen_controls_player1_only :
    (∀ e ∈ onScreenButtonEvents, e.player = Player.p1 ∧
      e.id ∈ ["select", "start", "y", "x", "a", "b", "l", "r"]) ∧
    (∀ (cur : Option Dir) (x y w h : ℚ),
      ∀ e ∈ (handleDpadMove cur x y w h).2,
        e.player = Player.p1 ∧ e.id ∈ ["up", "down", "left", "right"]) ∧
    (∀ cur : Option Dir, ∀ e ∈ (handleDpadEnd cur).2,
      e.player = Player.p1 ∧ e.id ∈ ["up", "down", "left", "right"]) := by
  refine ⟨by decide, ?_, by decide⟩
  intro cur x y w h e he
  unfold handleDpadMove at he
  by_cases hc : dpadZone x y w h = cur
  · simp [hc] at he
  · simp only [hc, if_false] at he
    exact dpadMoveEvents_all_p1 cur (dpadZone x y w h) e he


/-- Witness for C10 at a concrete button event, a concrete pointer move
entering the up zone, and a concrete pointer end releasing it. -/
theorem onscreen_controls_player1_only_witness :
    (handleVirtualPress "select").player = Player.p1 ∧
    (handleVirtualPress "select").id ∈
      ["select", "start", "y", "x", "a", "b", "l", "r"] ∧
    (handleVirtualPress "up").player = Player.p1 ∧
    (handleVirtualRelease "up").player = Player.p1 := by
  refine ⟨?_, ?_, ?_, ?_⟩
  · exact (onscreen_controls_player1_only.1 (handleVirtualPress "select")
      (by decide)).1
  · exact (onscreen_controls_player1_only.1 (handleVirtualPress "select")
      (by decide)).2
  · exact (onscreen_controls_player1_only.2.1 none (1/2) (1/10) 1 1
      (handleVirtualPress "up") (by
        have hz : dpadZone (1/2 : ℚ) (1/10) 1 1 = some Dir.up := by
          norm_num [dpadZone]
        simp only [handleDpadMove, hz]
        simp [dpadMoveEvents, Dir.name])).1
  · exact (onscreen_controls_player1_only.2.2 (some Dir.up)
      (handleVirtualRelease "up") (by decide)).1

end SNES
